import Mathlib

/-!
# Verification of the OpenLine core against its specification

Shallow embedding of the OpenLine core (openline/digest.py, openline/schema.py,
openline/guards.py, the FastAPI adapters, and the text→frame adapters) in Lean 4,
together with theorems settling the spec claims.

Modelling conventions:
* Python floats are modelled as exact rationals (`ℚ`).  Every numeric comparison
  exercised by a claim is far from the float rounding error of the source, so the
  rational model agrees with the float semantics on all inputs used here.
* Frames are modelled as records with optional fields (a missing dictionary
  key is `none`).  `guards.py` is embedded twice, because its behaviour depends
  on the Python representation of the frame's members: `guard_check` gives the
  dict-shaped semantics (every `.get` works), and `guard_check_pyd` gives the
  semantics on a pydantic `Frame` from `openline/schema.py` — whose `Telemetry`
  and `MorphOp` members are models without a `.get` method, so the dict-style
  accesses in `guards.py` (`m.get("op")` in `_adds_resolver`,
  `telem.get("delta_scale", 0.0)` in check 4) raise `AttributeError` there.
  The bus service passes pydantic frames, so `post_frame` uses the latter.
* The externally tuned threshold file `data/params.json` (read by
  `guards.py:_load_params` / `tuned_cap` with a TTL + mtime cache) is modelled by
  passing its `scale_caps` content as an explicit argument; the cache is pure
  plumbing around the file content and is not modelled.
* `networkx` graph semantics are embedded directly: `DiGraph.add_edge` keyed by
  `(src, dst)` with the last `rel` attribute winning, node insertion order
  preserved, weak components / simple cycles / DAG longest path as defined by
  the library.
-/

namespace OpenLine

/-- Node in the dictionary shape read by `guards.py` (`n.get("type")`,
`n.get("attrs", {})`).  A missing key is `none`. -/
structure Node where
  id : String
  type : Option String := none
  label : Option String := none
  attrs : List (String × String) := []
deriving Repr, DecidableEq

/-- Directed typed edge (`openline/schema.py:Edge` / edge dicts). -/
structure Edge where
  src : String
  dst : String
  rel : String
deriving Repr, DecidableEq

/-- 5-number digest (`openline/schema.py:Digest`): all integer fields are
pydantic `int ≥ 0`, `s_over_c` is a float (modelled as `ℚ`). -/
structure Digest where
  b0 : Nat
  cycle_plus : Nat
  x_frontier : Nat
  s_over_c : ℚ
  depth : Nat
deriving Repr, DecidableEq

/-- Morph operation in the dictionary shape read by `guards.py`.
`node` models the lookup `m.get("node") or m.get("payload", {}).get("node")`
performed by `_adds_resolver`: the node dict attached to the op, wherever the
producer put it. -/
structure Morph where
  op : String
  node : Option Node := none
deriving Repr, DecidableEq

/-- Telemetry fields actually read or written by the embedded code paths
(`guards.py` reads `delta_scale` / `delta_scale_tolerance` from the telem dict,
the bus service writes `delta_hol`).  The advisory scalar dials
(`phi_sem`, `phi_topo`, `kappa_eff`, ...) are carried but never gate anything. -/
structure Telemetry where
  phi_sem : ℚ := 0
  phi_topo : ℚ := 0
  delta_hol : ℚ := 0
  kappa_eff : ℚ := 0
  cost_tokens : Nat := 0
  delta_scale : Option ℚ := none
  delta_scale_tolerance : Option ℚ := none
deriving Repr, DecidableEq

/-- Frame (`openline/schema.py:Frame`, in the dict shape `guards.py` accepts).
The client-supplied digest is optional: `guard_check` raises when it is absent,
and the bus service always overwrites it with the recomputed digest. -/
structure Frame where
  stream_id : String
  t_logical : Int := 0
  nodes : List Node
  edges : List Edge
  digest : Option Digest := none
  morphs : List Morph := []
  telem : Telemetry := {}
  signature : Option String := none
deriving Repr, DecidableEq

/-! ## Association-list helpers (Python dict lookups) and string primitives

The string primitives (`lower`, `strip`, substring test) are written over
character lists so that every definition in the file evaluates by kernel
reduction on concrete inputs. -/

/-- `d.get(k)` on an association list: first binding wins. -/
def alistGet (l : List (String × String)) (k : String) : Option String :=
  (l.find? (fun p => p.1 == k)).map (·.2)

/-- Python `s.lower()` (ASCII, which is all the lexica here use). -/
def pyLower (s : String) : String :=
  ⟨s.data.map Char.toLower⟩

/-- Python `s.strip()`: remove leading and trailing whitespace. -/
def pyStrip (s : String) : String :=
  ⟨((s.data.dropWhile Char.isWhitespace).reverse.dropWhile Char.isWhitespace).reverse⟩

/-- Python `needle in hay` on character lists. -/
def listContainsSub (needle : List Char) : List Char → Bool
  | [] => needle.isEmpty
  | c :: rest => needle.isPrefixOf (c :: rest) || listContainsSub needle rest

/-- Python `needle in hay` for strings. -/
def strContains (hay needle : String) : Bool :=
  listContainsSub needle.data hay.data

/-! ## networkx graph construction

`G.add_edge(u, v, rel=r)` keys edges by `(u, v)`; adding the same pair again
overwrites the `rel` attribute.  `graphEdges` folds the edge list into that
keyed form (insertion order kept, last `rel` wins).  `graphNodes` is the node
set of `G` in insertion order: declared nodes first, then edge endpoints not
seen before (`add_edge` inserts missing endpoints). -/

def upsertEdge (acc : List Edge) (e : Edge) : List Edge :=
  if acc.any (fun e' => e'.src == e.src && e'.dst == e.dst) then
    acc.map (fun e' => if e'.src == e.src && e'.dst == e.dst then e else e')
  else
    acc ++ [e]

def graphEdges (edges : List Edge) : List Edge :=
  edges.foldl upsertEdge []

def insertIfAbsent (acc : List String) (x : String) : List String :=
  if x ∈ acc then acc else acc ++ [x]

def graphNodes (nodes : List Node) (edges : List Edge) : List String :=
  (nodes.map (·.id) ++ edges.flatMap (fun e => [e.src, e.dst])).foldl insertIfAbsent []

/-! ## Weakly connected components (`nx.number_weakly_connected_components`)

Embedded as the standard sweep: walk the node list in order; each unseen node
starts a new component and its undirected closure is marked seen.  The closure
is a fuel-indexed depth-first traversal (fuel bounds the number of stack pops;
`b0Fuel` is a safe over-approximation). -/

def closure (adj : String → List String) : Nat → List String → List String → List String
  | 0, _, seen => seen
  | _ + 1, [], seen => seen
  | fuel + 1, u :: stack, seen =>
    if u ∈ seen then closure adj fuel stack seen
    else closure adj fuel (adj u ++ stack) (u :: seen)

def componentSweep (adj : String → List String) (fuel : Nat) : List String → List String → Nat
  | [], _ => 0
  | v :: rest, seen =>
    if v ∈ seen then componentSweep adj fuel rest seen
    else 1 + componentSweep adj fuel rest (closure adj fuel [v] seen)

/-- Undirected neighbourhood of `u` in the (deduplicated) edge list. -/
def undirAdj (edges : List Edge) (u : String) : List String :=
  (edges.filter (fun e => e.src == u)).map (·.dst) ++
    (edges.filter (fun e => e.dst == u)).map (·.src)

/-- Fuel bound for the traversals: one unit per initial push plus one per
adjacency entry ever pushed. -/
def b0Fuel (ids : List String) (edges : List Edge) : Nat :=
  ids.length + 2 * edges.length + 2

/-- `nx.number_weakly_connected_components(G) if G.number_of_nodes() else 0`. -/
def numWeakComponents (ids : List String) (edges : List Edge) : Nat :=
  if ids.isEmpty then 0
  else componentSweep (undirAdj edges) (b0Fuel ids edges) ids []

/-! ## Simple directed cycles (`nx.simple_cycles`)

`nx.simple_cycles` enumerates the elementary circuits of the digraph, each
exactly once up to rotation.  We count them by canonical representative: a
cycle's vertex set is a sublist of the (duplicate-free) node list, and its
unique representative is the vertex sequence anchored at the member appearing
earliest in the node list. -/

/-- Is `c` a directed cycle: consecutive members adjacent, last wraps to head?
A singleton `[a]` is a cycle iff `a` has a self-loop. -/
def isCycleList (adj : String → String → Bool) : List String → Bool
  | [] => false
  | a :: rest =>
    let chainOk := (List.zip (a :: rest) rest).all (fun p => adj p.1 p.2)
    chainOk && adj ((a :: rest).getLast (by simp)) a

/-- All ways of inserting `x` into a list (helper for `permsR`). -/
def insertEverywhere (x : String) : List String → List (List String)
  | [] => [[x]]
  | a :: t => (x :: a :: t) :: (insertEverywhere x t).map (a :: ·)

/-- All permutations of a list (structural recursion, so it evaluates by
kernel reduction; for duplicate-free input each permutation appears once). -/
def permsR : List String → List (List String)
  | [] => [[]]
  | a :: t => (permsR t).flatMap (insertEverywhere a)

/-- All sublists of a list, each keeping the original relative order. -/
def sublistsR : List String → List (List String)
  | [] => [[]]
  | a :: t => sublistsR t ++ (sublistsR t).map (a :: ·)

/-- Number of simple directed cycles of the graph on (duplicate-free) `ids`
with adjacency `adj`, counted up to rotation: a cycle's vertex set is a
sublist of `ids`, and its unique canonical representative is the vertex
sequence anchored at the member appearing earliest in `ids`. -/
def simpleCycleCount (ids : List String) (adj : String → String → Bool) : Nat :=
  ((sublistsR ids).map (fun s =>
    match s with
    | [] => 0
    | a :: rest => ((permsR rest).map (a :: ·)).countP (isCycleList adj))).sum

/-- Adjacency of the supports-only subgraph `Gs` built by `compute_digest`. -/
def supportsAdj (gEdges : List Edge) (u v : String) : Bool :=
  gEdges.any (fun e => e.src == u && e.dst == v && e.rel == "supports")

/-! ## DAG longest path (`nx.dag_longest_path_length`) -/

/-- Longest path (edge count) starting at `u`, by fueled DFS.  On an acyclic
graph with fuel ≥ number of nodes this is exact; `compute_digest` only calls it
in the acyclic branch. -/
def lpFrom (adj : String → List String) : Nat → String → Nat
  | 0, _ => 0
  | fuel + 1, u => ((adj u).map (fun v => 1 + lpFrom adj fuel v)).foldl max 0

def dagLongestPathLength (ids : List String) (adj : String → List String) : Nat :=
  (ids.map (lpFrom adj (ids.length + 1))).foldl max 0

/-! ## `openline/digest.py:compute_digest`

`openline/schema.py:compute_digest` is a near-identical duplicate draft of the
same function; this embedding covers both (their digest fields agree on every
input: same networkx calls in the same order). -/

/-- Adjacency list of the reversed `depends_on` subgraph `D`
(`A depends_on B` becomes `B → A`). -/
def depAdj (gEdges : List Edge) (u : String) : List String :=
  ((gEdges.filter (fun e => e.rel == "depends_on")).filter (fun e => e.dst == u)).map (·.src)

def dep_edges (gEdges : List Edge) : List Edge :=
  gEdges.filter (fun e => e.rel == "depends_on")

def compute_digest (nodes : List Node) (edges : List Edge) : Digest :=
  let ids := graphNodes nodes edges
  let gEdges := graphEdges edges
  -- b0: weakly connected components
  let b0 := numWeakComponents ids gEdges
  -- cycle_plus: simple cycles on the supports-only subgraph Gs
  let cycle_plus := simpleCycleCount ids (supportsAdj gEdges)
  -- x_frontier: number of contradiction edges
  let x_frontier := (gEdges.filter (fun e => e.rel == "contradicts")).length
  -- s_over_c: supports : contradictions ratio (safe when c == 0)
  let s_count := (gEdges.filter (fun e => e.rel == "supports")).length
  let s_over_c : ℚ := if x_frontier = 0 then (s_count : ℚ) else (s_count : ℚ) / (x_frontier : ℚ)
  -- depth: longest depends_on chain on the reversed dependency subgraph D
  let depth :=
    if (dep_edges gEdges).isEmpty then 0
    else if simpleCycleCount ids (fun u v => (depAdj gEdges u).contains v) = 0 then
      dagLongestPathLength ids (depAdj gEdges)
    else
      min (ids.length - 1) 8
  { b0 := b0, cycle_plus := cycle_plus, x_frontier := x_frontier,
    s_over_c := s_over_c, depth := depth }

/-- `openline/schema.py:holonomy_gap` — L1 distance of the two digest vectors. -/
def holonomy_gap (pre post : Digest) : ℚ :=
  |(pre.b0 : ℚ) - (post.b0 : ℚ)| + |(pre.cycle_plus : ℚ) - (post.cycle_plus : ℚ)| +
    |(pre.x_frontier : ℚ) - (post.x_frontier : ℚ)| + |pre.s_over_c - post.s_over_c| +
    |(pre.depth : ℚ) - (post.depth : ℚ)|

/-- `openline/digest.py:holonomy_gap` — same L1 distance, `None → 0.0`. -/
def holonomy_gap_opt (pre : Option Digest) (post : Digest) : ℚ :=
  match pre with
  | none => 0
  | some p => holonomy_gap p post

/-! ## `openline/guards.py` — the Guard Engine -/

def CYCLE_PLUS_CAP : Nat := 4
def DELTA_HOL_CAP : ℚ := 2
def DELTA_SCALE_CAP_DEFAULT : ℚ := 3 / 100

/-- `guards.py:ASSET_CAPS`. -/
def ASSET_CAPS : List (String × ℚ) :=
  [("equity", 3 / 100), ("fx", 15 / 1000), ("crypto", 12 / 100),
   ("commodity", 4 / 100), ("bond", 1 / 100)]

/-- Content of `data/params.json`'s `scale_caps` table:
asset class → cadence pair → tuned cap. -/
abbrev ScaleParams := List (String × List (String × ℚ))

/-- `guards.py:tuned_cap` — learned override for `(asset, pair)`, falling back
to `default_cap` when the table has no entry (missing/corrupt file ⇒ empty
table). -/
def tuned_cap (params : ScaleParams) (asset pair : String) (default_cap : ℚ) : ℚ :=
  match (params.find? (fun p => p.1 == asset)).bind
      (fun row => (row.2.find? (fun q => q.1 == pair)).map (·.2)) with
  | some c => c
  | none => default_cap

/-- `guards.py:_adds_resolver` — did a morph add an Assumption/Counter node? -/
def adds_resolver (morphs : List Morph) : Bool :=
  morphs.any (fun m =>
    m.op == "add_node" &&
      match m.node with
      | some n => n.type == some "Assumption" || n.type == some "Counter"
      | none => false)

/-- `guards.py:_has_explanation` — a resolver node, a contradicts/supports
edge, or an explicit non-negative `delta_scale_tolerance` in telemetry. -/
def has_explanation (f : Frame) : Bool :=
  f.nodes.any (fun n => n.type == some "Assumption" || n.type == some "Counter") ||
    f.edges.any (fun e => e.rel == "contradicts" || e.rel == "supports") ||
    (match f.telem.delta_scale_tolerance with
     | some t => decide (0 ≤ t)
     | none => false)

/-- Structured guard violation; `guard_message` renders the `ValueError`
message text the Python code raises. -/
inductive GuardErr where
  | noDigest : GuardErr
  | cycleCap (cycle_plus : Nat) : GuardErr
  | frontierErase : GuardErr
  | holSpike (delta : ℚ) : GuardErr
  | scaleCap (ds cap_eff : ℚ) : GuardErr
deriving Repr, DecidableEq

/-- Two-decimal rendering standing in for Python's `f"{x:.2f}"` (the claims
never depend on the decimal text of a rational-valued message). -/
def fmt2 (q : ℚ) : String :=
  let cents : Int := ⌊q * 100⌋
  toString ((cents : ℚ) / 100)

def guard_message : GuardErr → String
  | .noDigest => "frame.digest is required for guard_check"
  | .cycleCap c =>
      "cycle_plus=" ++ toString c ++ " exceeds cap=" ++ toString CYCLE_PLUS_CAP ++
        " (self-reinforcing support loop)."
  | .frontierErase =>
      "x_frontier decreased via deletions only. " ++
        "Resolve contradictions by adding an Assumption/Counter, not by erasing edges/nodes."
  | .holSpike d =>
      "Δ_hol=" ++ fmt2 d ++ " exceeds cap=" ++ fmt2 DELTA_HOL_CAP ++
        " without an Assumption/Counter explaining the jump."
  | .scaleCap ds cap =>
      "Δ_scale=" ++ fmt2 ds ++ " exceeds cap=" ++ fmt2 cap ++
        " without Counter/Assumption/edge/tolerance"

/-- Guard check 1: cycle cap. -/
def cycle_check (d : Digest) : Option GuardErr :=
  if d.cycle_plus > CYCLE_PLUS_CAP then some (.cycleCap d.cycle_plus) else none

/-- Guard check 2: frontier deletion (x_frontier must not drop by
deletes-only without a resolver). -/
def frontier_check (prev : Option Digest) (d : Digest) (morphs : List Morph) :
    Option GuardErr :=
  match prev with
  | none => none
  | some p =>
    if d.x_frontier < p.x_frontier then
      let has_deletes := morphs.any (fun m => m.op == "del_node" || m.op == "del_edge")
      if has_deletes && !adds_resolver morphs then some .frontierErase else none
    else none

/-- Guard check 3: holonomy spike without a resolver. -/
def holonomy_check (prev : Option Digest) (d : Digest) (morphs : List Morph) :
    Option GuardErr :=
  match prev with
  | none => none
  | some p =>
    let delta_h := holonomy_gap p d
    if delta_h > DELTA_HOL_CAP && !adds_resolver morphs then some (.holSpike delta_h)
    else none

/-- `delta_scale` read from telemetry: `float(telem.get("delta_scale", 0.0) or 0.0)`. -/
def ds_value (f : Frame) : ℚ :=
  match f.telem.delta_scale with
  | none => 0
  | some v => v

/-- Attrs of the first `Claim` node (`{}` when there is none). -/
def first_claim_attrs (f : Frame) : List (String × String) :=
  match f.nodes.find? (fun n => n.type == some "Claim") with
  | some n => n.attrs
  | none => []

/-- Asset class: `(attrs.get("asset_class") or "default").lower()`. -/
def asset_of (f : Frame) : String :=
  pyLower
    (match alistGet (first_claim_attrs f) "asset_class" with
     | some s => if s = "" then "default" else s
     | none => "default")

/-- Cadence pair: `(attrs.get("cadence_pair") or "").strip()`. -/
def pair_of (f : Frame) : String :=
  pyStrip
    (match alistGet (first_claim_attrs f) "cadence_pair" with
     | some s => s
     | none => "")

/-- Effective Δ_scale cap: per-asset base cap, cadence-pair multiplier,
then the tuned override if present. -/
def cap_eff (f : Frame) (params : ScaleParams) : ℚ :=
  let asset := asset_of f
  let pair := pair_of f
  let base_cap :=
    match (ASSET_CAPS.find? (fun p => p.1 == asset)).map (·.2) with
    | some c => c
    | none => DELTA_SCALE_CAP_DEFAULT
  let pair_cap :=
    if pair = "min↔hour" then base_cap
    else if pair = "hour↔day" then base_cap * (12 / 10)
    else if pair = "day↔week" then base_cap * (16 / 10)
    else base_cap
  tuned_cap params (asset_of f) pair pair_cap

/-- Guard check 4: Δ_scale cap (`if ds and (ds > cap_eff) and not
_has_explanation(frame)`). -/
def delta_scale_check (f : Frame) (params : ScaleParams) : Option GuardErr :=
  let ds := ds_value f
  let cap := cap_eff f params
  if ds ≠ 0 && decide (ds > cap) && !has_explanation f then some (.scaleCap ds cap)
  else none

/-- `guards.py:guard_check` — the four checks in order, first failure wins
(`None` = frame accepted). -/
def guard_check (f : Frame) (prev_digest : Option Digest) (params : ScaleParams) :
    Option GuardErr :=
  match f.digest with
  | none => some .noDigest
  | some d =>
    match cycle_check d with
    | some e => some e
    | none =>
      match frontier_check prev_digest d f.morphs with
      | some e => some e
      | none =>
        match holonomy_check prev_digest d f.morphs with
        | some e => some e
        | none => delta_scale_check f params

/-! ## `guards.py:guard_check` on a pydantic `Frame`

The bus endpoint (`openline/openline/adapters/fastapi_app.py`) imports `Frame`
from `openline/schema.py` and hands the parsed pydantic model to
`guard_check`.  Pydantic models have no `.get` method, so the dict-style
accesses in `guards.py` raise `AttributeError` on that call shape:

* check 2 computes `has_deletes = any(m.get("op") in ... for m in morphs)`
  (guards.py:153) — on a non-empty `List[MorphOp]` the first `m.get` raises;
  on an empty batch `any` yields `False` without calling it;
* check 3 evaluates `not _adds_resolver(...)` only when the gap exceeds the
  cap (`and` short-circuits); `_adds_resolver` starts with `m.get("op")`
  (guards.py:104) and raises on a non-empty batch;
* check 4 runs `telem.get("delta_scale", 0.0)` (guards.py:174)
  unconditionally, and `telem` is always a pydantic `Telemetry` model — so
  every frame that survives checks 1–3 raises `AttributeError`.

FastAPI surfaces an unhandled `AttributeError` as HTTP 500, not 422. -/

/-- Outcome of `guard_check` on a pydantic frame: pass, a raised `ValueError`
(guard violation), or a raised `AttributeError` (dict-style access on a
model). -/
inductive PydGuardResult where
  | ok : PydGuardResult
  | valueError (e : GuardErr) : PydGuardResult
  | attributeError (msg : String) : PydGuardResult
deriving Repr, DecidableEq

def MORPH_GET_ERR : String := "MorphOp object has no attribute get"
def TELEM_GET_ERR : String := "Telemetry object has no attribute get"

/-- Checks 3 and 4 of `guard_check` on a pydantic frame, run when checks 1–2
did not raise.  Check 3: when the gap exceeds the cap, `not
_adds_resolver(...)` is evaluated — `m.get("op")` raises on a non-empty
batch, an empty batch gives `False` and the spike's `ValueError` is raised.
Otherwise control falls through to check 4, whose unconditional
`telem.get("delta_scale", 0.0)` raises on the pydantic `Telemetry`. -/
def pyd_check34 (f : Frame) (d : Digest) (prev : Option Digest) : PydGuardResult :=
  match prev with
  | some p =>
    if decide (holonomy_gap p d > DELTA_HOL_CAP) then
      if f.morphs.isEmpty then .valueError (.holSpike (holonomy_gap p d))
      else .attributeError MORPH_GET_ERR
    else .attributeError TELEM_GET_ERR
  | none => .attributeError TELEM_GET_ERR

/-- `guards.py:guard_check` as the bus invokes it, on a pydantic `Frame`:
check 1 reads attributes only; check 2's `has_deletes = any(m.get("op") ...)`
raises on a non-empty batch once the decrease branch is entered (an empty
batch passes the check); then checks 3–4 as in `pyd_check34`. -/
def guard_check_pyd (f : Frame) (prev_digest : Option Digest) : PydGuardResult :=
  match f.digest with
  | none => .valueError .noDigest
  | some d =>
    if d.cycle_plus > CYCLE_PLUS_CAP then .valueError (.cycleCap d.cycle_plus)
    else
      match prev_digest with
      | some p =>
        if d.x_frontier < p.x_frontier && !f.morphs.isEmpty then
          .attributeError MORPH_GET_ERR
        else pyd_check34 f d (some p)
      | none => pyd_check34 f d none

/-! ## `adapters/frame_builder.py:count_cycles`

Per-node three-colour DFS counting back-edges to in-progress (colour 1)
nodes.  Colours: 0 unvisited (absent from the map), 1 in progress, 2 done.
The recursion is fuel-indexed; each nested call consumes one unit and only
recurses into colour-0 nodes, so `nodes.length + edges.length + 1` fuel is
never exhausted. -/

def colorOf (colors : List (String × Nat)) (u : String) : Nat :=
  match colors.find? (fun p => p.1 == u) with
  | some p => p.2
  | none => 0

def setColor (colors : List (String × Nat)) (u : String) (c : Nat) :
    List (String × Nat) :=
  if colors.any (fun p => p.1 == u) then
    colors.map (fun p => if p.1 == u then (u, c) else p)
  else
    (u, c) :: colors

def dfsCount (adj : String → List String) :
    Nat → String → (List (String × Nat) × Nat) → List (String × Nat) × Nat
  | 0, _, st => st
  | fuel + 1, u, (colors, cycles) =>
    let st := ((adj u).foldl (fun (st : List (String × Nat) × Nat) v =>
      match colorOf st.1 v with
      | 0 => dfsCount adj fuel v st
      | 1 => (st.1, st.2 + 1)
      | _ => st) (setColor colors u 1, cycles))
    (setColor st.1 u 2, st.2)

def count_cycles (nodes : List Node) (edges : List Edge) : Nat :=
  let adj := fun u => (edges.filter (fun e => e.src == u)).map (·.dst)
  let fuel := nodes.length + edges.length + 1
  (nodes.foldl (fun (st : List (String × Nat) × Nat) n =>
    if colorOf st.1 n.id = 0 then dfsCount adj fuel n.id st else st) ([], 0)).2

/-! ## `openline/openline/adapters/fastapi_app.py` — the bus Frame Service -/

/-- In-memory stream store `_LAST_DIGEST`: stream id → last accepted digest. -/
abbrev StreamStore := List (String × Digest)

def storeGet (store : StreamStore) (sid : String) : Option Digest :=
  (store.find? (fun p => p.1 == sid)).map (·.2)

def storeSet (store : StreamStore) (sid : String) (d : Digest) : StreamStore :=
  if store.any (fun p => p.1 == sid) then
    store.map (fun p => if p.1 == sid then (sid, d) else p)
  else
    store ++ [(sid, d)]

structure BusReply where
  ok : Bool
  digest : Digest
  telem : Telemetry
deriving Repr, DecidableEq

/-- Outcome of one `POST /frame` on the bus: HTTP status, reply or 422 detail,
and the stream store after the request.  A raised `AttributeError` is an
unhandled exception, which FastAPI answers with a bare 500 (no detail from the
handler). -/
structure PostResult where
  status : Nat
  reply : Option BusReply
  detail : Option String
  store : StreamStore
deriving Repr, DecidableEq

/-- `post_frame`: recompute the digest (bus is the source of truth), run the
guards against the stored prior digest, commit on success and report the L1
holonomy gap in the returned telemetry.  The frame handed to `guard_check` is
a pydantic model, so the guard run follows `guard_check_pyd`; the 200 branch
is written as in the source, though `guard_check_pyd` can never pass. -/
def post_frame (store : StreamStore) (f : Frame) : PostResult :=
  let d_now := compute_digest f.nodes f.edges
  let d_prev := storeGet store f.stream_id
  let f' := { f with digest := some d_now }
  match guard_check_pyd f' d_prev with
  | .valueError e =>
    { status := 422, reply := none, detail := some (guard_message e), store := store }
  | .attributeError _ =>
    { status := 500, reply := none, detail := none, store := store }
  | .ok =>
    let store' := storeSet store f.stream_id d_now
    let telem' := { f.telem with delta_hol := holonomy_gap_opt d_prev d_now }
    { status := 200, reply := some { ok := true, digest := d_now, telem := telem' },
      detail := none, store := store' }

/-! ## `openline/adapters/fastapi_app.py` — the logging shim endpoint

This endpoint never rejects: it answers every request with HTTP 200
(`Response` default status).  Oversized bodies get `{ok: false, error:
"payload too large"}`; a body that fails to parse as JSON is treated as the
empty frame `{}` and accepted.  The body parameter models the outcome of
`json.loads`: `none` for malformed JSON. -/

structure ShimResponse where
  status : Nat
  ok : Bool
  accepted : Bool
  error : Option String
  nodeCount : Nat
  edgeCount : Nat
deriving Repr, DecidableEq

def SHIM_BYTE_CAP : Nat := 256000

def shim_post_frame (rawSize : Nat) (body : Option Frame) : ShimResponse :=
  -- `if raw and len(raw) > 256_000` (a body longer than the cap is non-empty)
  if rawSize > SHIM_BYTE_CAP then
    { status := 200, ok := false, accepted := false, error := some "payload too large",
      nodeCount := 0, edgeCount := 0 }
  else
    -- malformed JSON ⇒ `body = {}` ⇒ empty frame, still accepted
    let fr := body.getD { stream_id := "", nodes := [], edges := [] }
    { status := 200, ok := true, accepted := true, error := none,
      nodeCount := fr.nodes.length, edgeCount := fr.edges.length }

/-! ## `adapters/frames/frame_builder.py` — the Text Extractor

The v0.2 bounded-cost text→frame adapter.  Only the structural parts are
embedded (sentence split, node/edge extraction, confidence, and the digest
fields of `build_frame_from_text`); the transcendental telemetry scalars
(`phi_topo`, `phi_sem`, `kappa_eff`: logistic/entropy over floats) are not
read by any claim and are left out. -/

namespace FB

/-- Extractor-side node (`frame_builder.Node` dataclass). -/
structure Node where
  id : String
  type : String
  label : String
  weight : ℚ := 1
deriving Repr, DecidableEq

/-- Extractor-side edge (`frame_builder.Edge` dataclass). -/
structure Edge where
  src : String
  dst : String
  rel : String
  weight : ℚ := 1
deriving Repr, DecidableEq

/-- `re.split(r"(?<=[.!?])\s+", ·)`: cut at each whitespace run immediately
preceded by `.`, `!` or `?`; the whole run is consumed.  `buf` holds the
current part reversed; `skipping` is true while consuming a separator run. -/
def splitAfterPunct : List Char → List Char → Bool → List (List Char)
  | [], buf, _ => [buf.reverse]
  | c :: rest, buf, skipping =>
    if skipping && c.isWhitespace then
      splitAfterPunct rest buf true
    else if c.isWhitespace &&
        (match buf with
         | p :: _ => p = '.' || p = '!' || p = '?'
         | [] => false) then
      buf.reverse :: splitAfterPunct rest [] true
    else
      splitAfterPunct rest (c :: buf) false

/-- `frame_builder.sent_split`: split `text.strip()` at sentence boundaries,
strip the parts, drop empties. -/
def sent_split (text : String) : List String :=
  ((splitAfterPunct (pyStrip text).data [] false).map (fun cs => pyStrip (String.mk cs))).filter
    (· ≠ "")

def SUPPORT_TOKENS : List String := ["because", "therefore", "so that", "so,", "hence", "thus"]
def CONTRA_TOKENS : List String := ["however", "but", "nevertheless", "nonetheless", "although", "yet"]
def CITE_TOKENS : List String :=
  ["doi:", "pmid", "pmcid", "according to", "as cited", "see:", "arxiv", "usc", "§",
   "http://", "https://"]

/-- State threaded through the `_extract_nodes_edges` sentence loop. -/
structure ExtractState where
  nodes : List Node
  edges : List Edge
  nid : Nat
  lastClaim : String
  supportsUsed : Nat
  contrasUsed : Nat
deriving Repr

/-- One iteration of the `_extract_nodes_edges` loop over `sents[1:max_sents]`. -/
def extractStep (st : ExtractState) (s : String) : ExtractState :=
  let s_l := pyLower s
  let is_contra := CONTRA_TOKENS.any (fun t => strContains s_l t)
  let is_support := SUPPORT_TOKENS.any (fun t => strContains s_l t)
  let has_cite := CITE_TOKENS.any (fun t => strContains s_l t)
  let st :=
    if is_contra && st.contrasUsed < 2 then
      let eid := "E" ++ toString st.nid
      { st with
        nodes := st.nodes ++ [{ id := eid, type := "Evidence", label := s }],
        edges := st.edges ++ [{ src := eid, dst := st.lastClaim, rel := "contradicts" }],
        nid := st.nid + 1, contrasUsed := st.contrasUsed + 1 }
    else if (is_support || !is_contra) && st.supportsUsed < 4 then
      let eid := "E" ++ toString st.nid
      { st with
        nodes := st.nodes ++ [{ id := eid, type := "Evidence", label := s }],
        edges := st.edges ++ [{ src := eid, dst := st.lastClaim, rel := "supports" }],
        nid := st.nid + 1, supportsUsed := st.supportsUsed + 1 }
    else st
  if has_cite then
    let sid := "S" ++ toString st.nid
    let nodes' := st.nodes ++ [{ id := sid, type := "Source", label := s }]
    -- `target = nodes[-2].id if len(nodes) >= 2 else last_claim` (after append)
    let target :=
      match nodes'.reverse with
      | _ :: sndLast :: _ => sndLast.id
      | _ => st.lastClaim
    { st with
      nodes := nodes',
      edges := st.edges ++ [{ src := target, dst := sid, rel := "cites" }],
      nid := st.nid + 1 }
  else st

/-- The `_extract_nodes_edges` sentence loop: seed the first sentence as the
Claim, then run `extractStep` over `sents[1:max_sents]` with
`max_sents = min(len(sents), 8)`. -/
def extractLoop (s0 : String) (srest : List String) : ExtractState :=
  let max_sents := min (srest.length + 1) 8
  let st0 : ExtractState :=
    { nodes := [{ id := "C1", type := "Claim", label := s0 }], edges := [],
      nid := 2, lastClaim := "C1", supportsUsed := 0, contrasUsed := 0 }
  (srest.take (max_sents - 1)).foldl extractStep st0

/-- `confidence = min(1, coverage × link_syntax)` with
`coverage = (|nodes|+|edges|) / max(1, 1+|sents|)` clamped to 1 and
`link_syntax = 1.0` iff some node label contains a citation token. -/
def confidence (st : ExtractState) (nSents : Nat) : ℚ :=
  let coverage : ℚ :=
    min 1 (((st.nodes.length + st.edges.length : Nat) : ℚ) / max 1 (1 + (nSents : ℚ)))
  let link_syntax : ℚ :=
    if st.nodes.any (fun n => CITE_TOKENS.any (fun t => strContains (pyLower n.label) t))
    then 1 else 1 / 2
  min 1 (coverage * link_syntax)

/-- `frame_builder._extract_nodes_edges` — bounded heuristic extraction.
Returns `(nodes, edges, confidence)`. -/
def extract_nodes_edges (text : String) : List Node × List Edge × ℚ :=
  match sent_split text with
  | [] => ([], [], 0)
  | s0 :: srest =>
    let st := extractLoop s0 srest
    (st.nodes, st.edges, confidence st (s0 :: srest).length)

/-- `frame_builder._components` — undirected components of the extracted
graph (the source uses neighbour sets; membership-checked traversal gives the
same count). -/
def components (nodes : List Node) (edges : List Edge) : Nat :=
  let oEdges := edges.map (fun e => OpenLine.Edge.mk e.src e.dst e.rel)
  let ids := nodes.map (·.id)
  componentSweep (undirAdj oEdges) (b0Fuel ids oEdges) ids []

/-- `frame_builder._cycle_plus` — counts directed support triangles
`a→b→c→a` over the given node list (the digest path calls it with an empty
node list, so it contributes 0 there). -/
def cycle_plus_fb (nodes : List Node) (edges : List Edge) : Nat :=
  let sup := fun a =>
    ((edges.filter (fun e => e.rel == "supports")).filter (fun e => e.src == a)).map (·.dst)
  ((nodes.map (·.id)).map (fun a =>
    ((sup a).map (fun b => (sup b).countP (fun c => (sup c).contains a))).sum)).sum

/-- `frame_builder._longest_path` DFS body: contribution of visiting `u` with
`seen` already on the path (`best`-updates folded into a max). -/
def lpSeen (adj : String → List String) : Nat → List String → String → Nat
  | 0, _, _ => 0
  | fuel + 1, seen, u =>
    if u ∈ seen then 0
    else ((adj u).map (lpSeen adj fuel (u :: seen))).foldl max seen.length

/-- `frame_builder._longest_path` — best `len(seen)-1` reachable by a
repeat-free walk along supports/contradicts/depends_on edges, from any node. -/
def longest_path (nodes : List Node) (edges : List Edge) : Nat :=
  let adj := fun u =>
    ((edges.filter (fun e =>
        e.rel == "supports" || e.rel == "contradicts" || e.rel == "depends_on")).filter
      (fun e => e.src == u)).map (·.dst)
  let fuel := nodes.length + edges.length + 1
  (nodes.map (fun n => lpSeen adj fuel [] n.id)).foldl max 0

/-- `frame_builder._counts` — `(S, K, C)` with `C` computed over an empty
node list (as written in the source). -/
def countsSKC (edges : List Edge) : Nat × Nat × Nat :=
  (edges.countP (fun e => e.rel == "supports"),
   edges.countP (fun e => e.rel == "contradicts"),
   cycle_plus_fb [] (edges.filter (fun e => e.rel == "supports")))

/-- Structural output of `frame_builder.build_frame_from_text` (digest and
extraction confidence; transcendental telemetry omitted). -/
structure BuiltFrame where
  nodes : List Node
  edges : List Edge
  digest : Digest
  conf : ℚ
deriving Repr

/-- `frame_builder.build_frame_from_text`, structural part. -/
def build_frame_from_text (text : String) : BuiltFrame :=
  let (nodes, edges, conf) := extract_nodes_edges text
  let skc := countsSKC edges
  let S := skc.1
  let K := skc.2.1
  let C := skc.2.2
  let depth := longest_path nodes edges
  let b0 := components nodes edges
  let s_over_c : ℚ := (S : ℚ) / (if K > 0 then (K : ℚ) else 1)
  { nodes := nodes, edges := edges,
    digest := { b0 := b0, cycle_plus := C, x_frontier := K, s_over_c := s_over_c,
                depth := depth },
    conf := conf }

end FB

/-! ## Concrete scenario data used by the claims -/

def zeroDigest : Digest := ⟨0, 0, 0, 0, 0⟩

/-- C1: first frame of stream `"s"` — empty graph, digest `⟨0,0,0,0,0⟩`. -/
def c1Frame1 : Frame := { stream_id := "s", nodes := [], edges := [] }

/-- C1: second frame — three isolated nodes, digest `⟨3,0,0,0,0⟩`, L1 gap 3. -/
def c1Frame2 : Frame :=
  { stream_id := "s",
    nodes := [{ id := "a", type := some "Claim" }, { id := "b", type := some "Evidence" },
              { id := "c", type := some "Evidence" }],
    edges := [] }

def counterMorph : Morph :=
  { op := "add_node", node := some { id := "k", type := some "Counter" } }

/-- C1: the same second frame with a Counter-adding morph. -/
def c1Frame2R : Frame := { c1Frame2 with morphs := [counterMorph] }

/-- C2: diamond with a closing edge — `a→b→d→a` and `a→c→d→a` are two simple
support cycles, but a single DFS from `a` sees only one back-edge (the second
path reaches `d` when it is already finished). -/
def diamondNodes : List Node :=
  [{ id := "a" }, { id := "b" }, { id := "c" }, { id := "d" }]

def diamondEdges : List Edge :=
  [⟨"a", "b", "supports"⟩, ⟨"a", "c", "supports"⟩, ⟨"b", "d", "supports"⟩,
   ⟨"c", "d", "supports"⟩, ⟨"d", "a", "supports"⟩]

/-- C3: frame with `delta_scale = 0.15`, first Claim declaring
`asset_class="equity"` and `cadence_pair="hour↔day"`, no explanation. -/
def c3Frame : Frame :=
  { stream_id := "s3",
    nodes := [{ id := "c1", type := some "Claim",
                attrs := [("asset_class", "equity"), ("cadence_pair", "hour↔day")] }],
    edges := [],
    digest := some ⟨1, 0, 0, 0, 0⟩,
    telem := { delta_scale := some (15 / 100) } }

/-- C3: the same frame with a Counter node added. -/
def c3FrameR : Frame :=
  { c3Frame with nodes := c3Frame.nodes ++ [{ id := "x", type := some "Counter" }] }

def assumptionMorph : Morph :=
  { op := "add_node", node := some { id := "a9", type := some "Assumption" } }

def delEdgeMorph : Morph := { op := "del_edge" }

/-- C5 witness: client digest with `cycle_plus = 5`. -/
def c5Frame : Frame :=
  { stream_id := "w5", nodes := [], edges := [], digest := some ⟨1, 5, 0, 0, 0⟩ }

/-- C6 witness: two-node edge-free graph. -/
def c6Nodes : List Node := [{ id := "a" }, { id := "b" }]

/-- C8: the scenario text from the spec (also in tests/test_guards_v02.py). -/
def c8Text : String :=
  "The result is consistent. Because RCTs show effect, we proceed. According to doi:10.1000/xyz, findings replicate. Therefore, policy holds."

def c8Built : FB.BuiltFrame := FB.build_frame_from_text c8Text

/-- C9 witness: complete support digraph on three nodes — its recomputed
digest has 5 simple support cycles (3 two-cycles + 2 triangles), tripping the
cycle cap at the bus. -/
def k3Frame : Frame :=
  { stream_id := "k3",
    nodes := [{ id := "a" }, { id := "b" }, { id := "c" }],
    edges := [⟨"a", "b", "supports"⟩, ⟨"b", "a", "supports"⟩, ⟨"b", "c", "supports"⟩,
              ⟨"c", "b", "supports"⟩, ⟨"c", "a", "supports"⟩, ⟨"a", "c", "supports"⟩] }

/-- C10: frame with a negative `delta_scale` and no explanation. -/
def c10Frame : Frame :=
  { stream_id := "t", nodes := [], edges := [], digest := some zeroDigest,
    telem := { delta_scale := some (-(1 : ℚ) / 2) } }

/-- C10: tuned caps assigning the (default asset, empty pair) slot a negative
cap `-1`, as a params file may. -/
def c10Params : ScaleParams := [("default", [("", -(1 : ℚ))])]

/-- C10 witness: empty frame with no `delta_scale` in telemetry. -/
def w10Frame : Frame := { stream_id := "w10", nodes := [], edges := [] }

/-! ## Shared helper lemmas -/

theorem isInfix_append_of_right {α : Type} {l b : List α} (a : List α)
    (h : l <:+: b) : l <:+: a ++ b := by
  obtain ⟨s, t, hst⟩ := h
  exact ⟨a ++ s, t, by rw [← hst]; simp⟩

/-- `guard_check` with a present digest is the four checks run in order. -/
theorem guard_check_unfold (f : Frame) (d : Digest) (prev : Option Digest)
    (params : ScaleParams) (hd : f.digest = some d) :
    guard_check f prev params =
      (match cycle_check d with
       | some e => some e
       | none =>
         match frontier_check prev d f.morphs with
         | some e => some e
         | none =>
           match holonomy_check prev d f.morphs with
           | some e => some e
           | none => delta_scale_check f params) := by
  simp only [guard_check, hd]

/-- Checks 3–4 of the pydantic guard run never pass: either the holonomy
spike raises, or control reaches the `telem.get` call and raises. -/
theorem pyd_check34_ne_ok (f : Frame) (d : Digest) (prev : Option Digest) :
    pyd_check34 f d prev ≠ .ok := by
  rcases prev with _ | p
  · simp [pyd_check34]
  · simp only [pyd_check34]
    cases hc : decide (holonomy_gap p d > DELTA_HOL_CAP)
    · simp [hc]
    · cases hm : f.morphs.isEmpty <;> simp [hc, hm]

/-- `guard_check_pyd` never passes: check 4 (or an earlier `.get`) always
raises before the function can return normally, so the acceptance path of the
bus is dead code. -/
theorem guard_check_pyd_ne_ok (f : Frame) (prev : Option Digest) :
    guard_check_pyd f prev ≠ .ok := by
  rcases hd : f.digest with _ | d
  · simp [guard_check_pyd, hd]
  · simp only [guard_check_pyd, hd]
    by_cases hc : d.cycle_plus > CYCLE_PLUS_CAP
    · simp [hc]
    · rw [if_neg hc]
      rcases prev with _ | p
      · simpa using pyd_check34_ne_ok f d none
      · cases h2 : (decide (d.x_frontier < p.x_frontier) && !f.morphs.isEmpty)
        · simpa [h2] using pyd_check34_ne_ok f d (some p)
        · simp [h2]

/-- A guard `ValueError` at the bus yields 422 with the rendered message and
leaves the stream store untouched. -/
theorem post_frame_of_value_err (store : StreamStore) (f : Frame) (e : GuardErr)
    (h : guard_check_pyd { f with digest := some (compute_digest f.nodes f.edges) }
        (storeGet store f.stream_id) = .valueError e) :
    post_frame store f = ⟨422, none, some (guard_message e), store⟩ := by
  simp only [post_frame]
  rw [h]

/-- A raised `AttributeError` at the bus yields a bare 500 and leaves the
stream store untouched. -/
theorem post_frame_of_attr_err (store : StreamStore) (f : Frame) (msg : String)
    (h : guard_check_pyd { f with digest := some (compute_digest f.nodes f.edges) }
        (storeGet store f.stream_id) = .attributeError msg) :
    post_frame store f = ⟨500, none, none, store⟩ := by
  simp only [post_frame]
  rw [h]

/-- The bus never answers 200 and never commits to the stream store. -/
theorem post_frame_no_accept (store : StreamStore) (f : Frame) :
    (post_frame store f).status ≠ 200 ∧ (post_frame store f).store = store := by
  have hok := guard_check_pyd_ne_ok
    { f with digest := some (compute_digest f.nodes f.edges) } (storeGet store f.stream_id)
  simp only [post_frame]
  rcases hr : guard_check_pyd
      { f with digest := some (compute_digest f.nodes f.edges) }
      (storeGet store f.stream_id) with _ | e | msg
  · exact absurd hr hok
  · simp [hr]
  · simp [hr]

theorem adds_resolver_of_assumption {morphs : List Morph} {m : Morph} {n : Node}
    (hm : m ∈ morphs) (hop : m.op = "add_node") (hn : m.node = some n)
    (hty : n.type = some "Assumption") : adds_resolver morphs = true := by
  refine List.any_eq_true.mpr ⟨m, hm, ?_⟩
  simp [hop, hn, hty]

theorem foldl_insertIfAbsent_of_nodup :
    ∀ (l acc : List String), l.Nodup → (∀ x ∈ l, x ∉ acc) →
      l.foldl insertIfAbsent acc = acc ++ l := by
  intro l
  induction l with
  | nil => intro acc _ _; simp
  | cons a t ih =>
    intro acc hnd hd
    have ha : a ∉ acc := hd a (by simp)
    rw [List.foldl_cons, insertIfAbsent, if_neg ha,
      ih (acc ++ [a]) (List.Nodup.of_cons hnd) ?_]
    · simp
    · intro x hx
      have hxa : x ≠ a := by
        intro h
        exact (List.nodup_cons.mp hnd).1 (h ▸ hx)
      simp [hxa, hd x (List.mem_cons_of_mem a hx)]

theorem closure_empty_adj (fuel : Nat) (v : String) (seen : List String)
    (hv : v ∉ seen) : closure (fun _ => []) (fuel + 1) [v] seen = v :: seen := by
  rw [closure, if_neg hv]
  cases fuel <;> simp [closure]

theorem componentSweep_empty_adj (fuel : Nat) :
    ∀ (ids seen : List String), ids.Nodup → (∀ x ∈ ids, x ∉ seen) →
      componentSweep (fun _ => []) (fuel + 1) ids seen = ids.length := by
  intro ids
  induction ids with
  | nil => intro seen _ _; simp [componentSweep]
  | cons v rest ih =>
    intro seen hnd hd
    have hv : v ∉ seen := hd v (by simp)
    rw [componentSweep, if_neg hv, closure_empty_adj fuel v seen hv,
      ih (v :: seen) (List.Nodup.of_cons hnd) ?_]
    · simp [Nat.add_comm]
    · intro x hx
      have hxv : x ≠ v := by
        intro h
        exact (List.nodup_cons.mp hnd).1 (h ▸ hx)
      simp [hxv, hd x (List.mem_cons_of_mem v hx)]

theorem numWeakComponents_no_edges (ids : List String) (h : ids.Nodup) :
    numWeakComponents ids [] = ids.length := by
  have hadj : undirAdj [] = fun _ => [] := by
    funext u; simp [undirAdj]
  rw [numWeakComponents]
  by_cases hids : ids.isEmpty
  · rw [if_pos hids]
    cases ids with
    | nil => rfl
    | cons a t => simp at hids
  · rw [if_neg hids, hadj]
    have : b0Fuel ids [] = (ids.length + 1) + 1 := by simp [b0Fuel]
    rw [this, componentSweep_empty_adj _ ids [] h (by simp)]

theorem isCycleList_adj_false {adj : String → String → Bool}
    (h : ∀ u v, adj u v = false) (c : List String) : isCycleList adj c = false := by
  cases c with
  | nil => rfl
  | cons a rest => simp [isCycleList, h]

theorem simpleCycleCount_adj_false (ids : List String) (adj : String → String → Bool)
    (h : ∀ u v, adj u v = false) : simpleCycleCount ids adj = 0 := by
  rw [simpleCycleCount]
  apply List.sum_eq_zero
  intro x hx
  obtain ⟨s, _, hs⟩ := List.mem_map.mp hx
  subst hs
  cases s with
  | nil => rfl
  | cons a rest =>
    simp only []
    apply List.countP_eq_zero.mpr
    intro c _
    simp [isCycleList_adj_false h c]

/-! ## The claims -/

/-- L1 gap between the two C1 scenario digests. -/
theorem c1_gap_eq : holonomy_gap zeroDigest ⟨3, 0, 0, 0, 0⟩ = 3 := by
  simp [holonomy_gap, zeroDigest]

theorem c1_holonomy_check_fires :
    holonomy_check (some zeroDigest) ⟨3, 0, 0, 0, 0⟩ c1Frame2.morphs =
      some (.holSpike 3) := by
  simp only [holonomy_check, c1_gap_eq]
  norm_num [adds_resolver, DELTA_HOL_CAP, c1Frame2]

theorem c1_holonomy_check_resolved :
    holonomy_check (some zeroDigest) ⟨3, 0, 0, 0, 0⟩ c1Frame2R.morphs = none := by
  simp only [holonomy_check, c1_gap_eq]
  simp [adds_resolver, c1Frame2R, counterMorph]

theorem c1_guard_rejects :
    guard_check { c1Frame2 with digest := some (compute_digest c1Frame2.nodes c1Frame2.edges) }
      (some zeroDigest) [] = some (.holSpike 3) := by
  rw [show compute_digest c1Frame2.nodes c1Frame2.edges = ⟨3, 0, 0, 0, 0⟩ from by decide]
  rw [guard_check_unfold _ ⟨3, 0, 0, 0, 0⟩ _ _ rfl]
  rw [show cycle_check ⟨3, 0, 0, 0, 0⟩ = none from by decide]
  rw [show frontier_check (some zeroDigest) ⟨3, 0, 0, 0, 0⟩
      ({ c1Frame2 with digest := some ⟨3, 0, 0, 0, 0⟩ } : Frame).morphs = none from by decide]
  rw [show ({ c1Frame2 with digest := some ⟨3, 0, 0, 0, 0⟩ } : Frame).morphs =
      c1Frame2.morphs from rfl]
  rw [c1_holonomy_check_fires]

theorem c1_guard_accepts :
    guard_check { c1Frame2R with digest := some (compute_digest c1Frame2R.nodes c1Frame2R.edges) }
      (some zeroDigest) [] = none := by
  rw [show compute_digest c1Frame2R.nodes c1Frame2R.edges = ⟨3, 0, 0, 0, 0⟩ from by decide]
  rw [guard_check_unfold _ ⟨3, 0, 0, 0, 0⟩ _ _ rfl]
  rw [show cycle_check ⟨3, 0, 0, 0, 0⟩ = none from by decide]
  rw [show frontier_check (some zeroDigest) ⟨3, 0, 0, 0, 0⟩
      ({ c1Frame2R with digest := some ⟨3, 0, 0, 0, 0⟩ } : Frame).morphs = none from by decide]
  rw [show ({ c1Frame2R with digest := some ⟨3, 0, 0, 0, 0⟩ } : Frame).morphs =
      c1Frame2R.morphs from rfl]
  rw [c1_holonomy_check_resolved]
  exact (by decide :
    delta_scale_check { c1Frame2R with digest := some ⟨3, 0, 0, 0, 0⟩ } [] = none)

/-- The second C1 frame, run through `guard_check` on the bus's pydantic
models: checks 1–2 pass, the spike branch of check 3 fires with an empty
morph batch, so the `ValueError` (422) is reached without touching a `.get`. -/
theorem c1_pyd_reject :
    guard_check_pyd
      { c1Frame2 with digest := some (compute_digest c1Frame2.nodes c1Frame2.edges) }
      (storeGet [("s", zeroDigest)] c1Frame2.stream_id) = .valueError (.holSpike 3) := by
  rw [show storeGet [("s", zeroDigest)] c1Frame2.stream_id = some zeroDigest from by decide]
  rw [show compute_digest c1Frame2.nodes c1Frame2.edges = ⟨3, 0, 0, 0, 0⟩ from by decide]
  simp only [guard_check_pyd, pyd_check34]
  rw [show (decide (holonomy_gap zeroDigest ⟨3, 0, 0, 0, 0⟩ > DELTA_HOL_CAP)) = true from by
    rw [c1_gap_eq]; decide]
  rw [c1_gap_eq]
  decide

/-- The Counter-morph C1 frame on the pydantic path: the spike branch of
check 3 evaluates `_adds_resolver`, whose `m.get("op")` on the `MorphOp`
model raises `AttributeError`. -/
theorem c1_pyd_counter_crash :
    guard_check_pyd
      { c1Frame2R with digest := some (compute_digest c1Frame2R.nodes c1Frame2R.edges) }
      (storeGet [("s", zeroDigest)] c1Frame2R.stream_id) = .attributeError MORPH_GET_ERR := by
  rw [show storeGet [("s", zeroDigest)] c1Frame2R.stream_id = some zeroDigest from by decide]
  rw [show compute_digest c1Frame2R.nodes c1Frame2R.edges = ⟨3, 0, 0, 0, 0⟩ from by decide]
  simp only [guard_check_pyd, pyd_check34]
  rw [show (decide (holonomy_gap zeroDigest ⟨3, 0, 0, 0, 0⟩ > DELTA_HOL_CAP)) = true from by
    rw [c1_gap_eq]; decide]
  decide

/-- C1 (code bug): the guard engine itself, on the dict-shaped frames
`guards.py` is written for, behaves exactly as the claim says — L1 gap 3.0
above the 2.0 cap is rejected with the holonomy-spike error when the batch
adds no resolver, and accepted when a Counter-adding morph is present.  But
the bus service hands `guard_check` pydantic models: the scenario's first
frame crashes in check 4 (`telem.get` on the `Telemetry` model,
guards.py:174), so HTTP 500 and no prior digest is ever committed; and even
against a seeded prior, the Counter-morph frame crashes in `_adds_resolver`
(`m.get` on `MorphOp`, guards.py:104), answering HTTP 500 with no reply —
never 200 with `delta_hol = 3.0`.  Only the resolver-free rejection (422,
holonomy-spike message) is observable at the service. -/
theorem c1_holonomy_spike_scenario :
    holonomy_gap zeroDigest (compute_digest c1Frame2.nodes c1Frame2.edges) = 3 ∧
    adds_resolver c1Frame2.morphs = false ∧
    guard_check { c1Frame2 with digest := some (compute_digest c1Frame2.nodes c1Frame2.edges) }
      (some zeroDigest) [] = some (.holSpike 3) ∧
    guard_check { c1Frame2R with digest := some (compute_digest c1Frame2R.nodes c1Frame2R.edges) }
      (some zeroDigest) [] = none ∧
    (post_frame [] c1Frame1).status = 500 ∧
    (post_frame [] c1Frame1).store = [] ∧
    (post_frame [("s", zeroDigest)] c1Frame2).status = 422 ∧
    (post_frame [("s", zeroDigest)] c1Frame2).detail = some (guard_message (.holSpike 3)) ∧
    (post_frame [("s", zeroDigest)] c1Frame2R).status = 500 ∧
    (post_frame [("s", zeroDigest)] c1Frame2R).reply = none ∧
    (post_frame [("s", zeroDigest)] c1Frame2R).store = [("s", zeroDigest)] := by
  have hcrash1 : guard_check_pyd
      { c1Frame1 with digest := some (compute_digest c1Frame1.nodes c1Frame1.edges) }
      (storeGet [] c1Frame1.stream_id) = .attributeError TELEM_GET_ERR := by decide
  rw [post_frame_of_attr_err [] c1Frame1 TELEM_GET_ERR hcrash1,
    post_frame_of_value_err [("s", zeroDigest)] c1Frame2 (.holSpike 3) c1_pyd_reject,
    post_frame_of_attr_err [("s", zeroDigest)] c1Frame2R MORPH_GET_ERR c1_pyd_counter_crash]
  refine ⟨?_, by decide, c1_guard_rejects, c1_guard_accepts, rfl, rfl, rfl, rfl, rfl, rfl, rfl⟩
  rw [show compute_digest c1Frame2.nodes c1Frame2.edges = ⟨3, 0, 0, 0, 0⟩ from by decide]
  exact c1_gap_eq

/-- C2 counterexample: on the diamond graph the Digest Computer's
`cycle_plus` (exhaustive `nx.simple_cycles` enumeration) is 2, while the
three-colour DFS back-edge count over the same supports-only subgraph
(`adapters/frame_builder.py:count_cycles`) is 1 — the two semantics differ,
so `cycle_plus` is not the back-edge count. -/
theorem c2_cycle_semantics_counterexample :
    (compute_digest diamondNodes diamondEdges).cycle_plus = 2 ∧
    count_cycles diamondNodes (diamondEdges.filter (fun e => e.rel == "supports")) = 1 ∧
    (compute_digest diamondNodes diamondEdges).cycle_plus ≠
      count_cycles diamondNodes (diamondEdges.filter (fun e => e.rel == "supports")) := by
  decide

/-- C2 amended: for every graph the Digest Computer's `cycle_plus` equals the
number of exhaustively enumerated simple directed cycles of the supports-only
subgraph; the per-node three-colour DFS back-edge count is implemented only in
the extraction path (`count_cycles`) and can be strictly smaller, as on the
diamond graph. -/
theorem c2_cycle_semantics_amended :
    (∀ (nodes : List Node) (edges : List Edge),
      (compute_digest nodes edges).cycle_plus =
        simpleCycleCount (graphNodes nodes edges) (supportsAdj (graphEdges edges))) ∧
    count_cycles diamondNodes (diamondEdges.filter (fun e => e.rel == "supports")) <
      (compute_digest diamondNodes diamondEdges).cycle_plus :=
  ⟨fun _ _ => rfl, by decide⟩

/-- C3: a frame with `delta_scale = 0.15`, first Claim declaring
`asset_class="equity"` and the two-step cadence pair `"hour↔day"` (effective
cap 0.03 × 1.2 = 0.036), with no resolver node, no contradicts/supports edge
and no tolerance, is rejected by the guard engine; the identical frame with a
Counter node added is accepted. -/
theorem c3_delta_scale_scenario :
    cap_eff c3Frame [] = (3 / 100) * (12 / 10) ∧
    guard_check c3Frame none [] = some (.scaleCap (15 / 100) (9 / 250)) ∧
    guard_check c3FrameR none [] = none := by
  have hcap : cap_eff c3Frame [] = 9 / 250 := by
    simp only [cap_eff, tuned_cap, show pair_of c3Frame = "hour↔day" from by decide,
      show asset_of c3Frame = "equity" from by decide]
    simp only [List.find?_nil, Option.none_bind, if_true]
    rw [if_neg (by decide : ¬("hour↔day" : String) = "min↔hour")]
    rw [show (Option.map (fun x => x.2) (List.find? (fun p => p.1 == "equity") ASSET_CAPS)) =
        some (3 / 100) from rfl]
    norm_num
  have hdsc : delta_scale_check c3Frame [] = some (.scaleCap (15 / 100) (9 / 250)) := by
    have hcond : ((ds_value c3Frame ≠ 0 : Bool) &&
        decide (ds_value c3Frame > cap_eff c3Frame []) && !has_explanation c3Frame) = true := by
      rw [show ds_value c3Frame = 15 / 100 from rfl, hcap,
        show has_explanation c3Frame = false from by decide]
      norm_num
    simp only [delta_scale_check]
    rw [hcond, if_pos rfl]
    rw [show ds_value c3Frame = 15 / 100 from rfl, hcap]
  refine ⟨by rw [hcap]; norm_num, ?_, ?_⟩
  · rw [guard_check_unfold c3Frame ⟨1, 0, 0, 0, 0⟩ none [] rfl]
    rw [show cycle_check ⟨1, 0, 0, 0, 0⟩ = none from by decide]
    rw [hdsc]
    rfl
  · have hdscR : delta_scale_check c3FrameR [] = none := by
      simp [delta_scale_check, show has_explanation c3FrameR = true from by decide]
    rw [guard_check_unfold c3FrameR ⟨1, 0, 0, 0, 0⟩ none [] rfl]
    rw [show cycle_check ⟨1, 0, 0, 0, 0⟩ = none from by decide]
    rw [hdscR]
    rfl

/-- C4: whenever the recomputed `x_frontier` strictly drops below the prior
digest's and the morph batch contains an `add_node` whose node has type
`Assumption`, the frontier non-erasure check passes — even if `del_node` /
`del_edge` operations are present in the same batch. -/
theorem c4_frontier_resolver_passes (prev d : Digest) (morphs : List Morph)
    (hdec : d.x_frontier < prev.x_frontier) (m : Morph) (hm : m ∈ morphs)
    (hop : m.op = "add_node") (n : Node) (hn : m.node = some n)
    (hty : n.type = some "Assumption") :
    frontier_check (some prev) d morphs = none := by
  have hres := adds_resolver_of_assumption hm hop hn hty
  simp [frontier_check, hres, hdec]

/-- C4 witness: prior `x_frontier = 2`, new `x_frontier = 1`, morph batch
containing both an Assumption `add_node` and a `del_edge`. -/
theorem c4_frontier_resolver_witness :
    frontier_check (some ⟨0, 0, 2, 0, 0⟩) ⟨0, 0, 1, 0, 0⟩
      [assumptionMorph, delEdgeMorph] = none :=
  c4_frontier_resolver_passes ⟨0, 0, 2, 0, 0⟩ ⟨0, 0, 1, 0, 0⟩
    [assumptionMorph, delEdgeMorph] (by decide) assumptionMorph (by decide)
    (by decide) { id := "a9", type := some "Assumption" } (by decide) (by decide)

/-- C5: any frame whose digest's `cycle_plus` exceeds the cap (4) is rejected
by the guard engine — the cycle check is evaluated first, so this holds
regardless of all other digest fields, morphs and telemetry — and the
rejection message contains the cap value (`"cap=4"`). -/
theorem c5_cycle_cap_rejects (f : Frame) (d : Digest) (prev : Option Digest)
    (params : ScaleParams) (hd : f.digest = some d)
    (hc : d.cycle_plus > CYCLE_PLUS_CAP) :
    guard_check f prev params = some (.cycleCap d.cycle_plus) ∧
    "cap=4".data <:+: (guard_message (.cycleCap d.cycle_plus)).data := by
  constructor
  · simp [guard_check, hd, cycle_check, hc]
  · have hmsg : guard_message (.cycleCap d.cycle_plus) =
        ("cycle_plus=" ++ toString d.cycle_plus) ++
          (" exceeds cap=" ++ toString CYCLE_PLUS_CAP ++
            " (self-reinforcing support loop).") := by
      simp [guard_message, String.append_assoc]
    rw [hmsg]
    have hdata : (("cycle_plus=" ++ toString d.cycle_plus) ++
        (" exceeds cap=" ++ toString CYCLE_PLUS_CAP ++
          " (self-reinforcing support loop).")).data =
        ("cycle_plus=" ++ toString d.cycle_plus).data ++
          (" exceeds cap=" ++ toString CYCLE_PLUS_CAP ++
            " (self-reinforcing support loop).").data := by
      simp [String.data_append]
    rw [hdata]
    exact isInfix_append_of_right _ (by decide)

/-- C5 witness: a frame whose digest has `cycle_plus = 5`. -/
theorem c5_cycle_cap_witness :
    guard_check c5Frame none [] = some (.cycleCap 5) ∧
    "cap=4".data <:+: (guard_message (.cycleCap 5)).data :=
  c5_cycle_cap_rejects c5Frame ⟨1, 5, 0, 0, 0⟩ none [] (by decide) (by decide)

/-- C6: for every graph with an empty edge list and duplicate-free node ids,
the computed digest is `{b0 = |nodes|, cycle_plus = 0, x_frontier = 0,
s_over_c = 0, depth = 0}`. -/
theorem c6_no_edges_digest (nodes : List Node) (h : (nodes.map Node.id).Nodup) :
    compute_digest nodes [] = ⟨nodes.length, 0, 0, 0, 0⟩ := by
  have hgn : graphNodes nodes [] = nodes.map Node.id := by
    show (nodes.map Node.id ++ ([] : List Edge).flatMap
      (fun e => [e.src, e.dst])).foldl insertIfAbsent [] = nodes.map Node.id
    rw [show (([] : List Edge).flatMap (fun e => [e.src, e.dst])) = [] from rfl,
      List.append_nil,
      foldl_insertIfAbsent_of_nodup (nodes.map Node.id) [] h (by simp)]
    simp
  simp only [compute_digest]
  rw [show graphEdges [] = [] from rfl, hgn]
  simp only [Digest.mk.injEq]
  refine ⟨?_, ?_, ?_, ?_, ?_⟩
  · rw [numWeakComponents_no_edges _ h, List.length_map]
  · exact simpleCycleCount_adj_false _ _ (fun u v => by simp [supportsAdj])
  · simp
  · simp
  · simp [dep_edges]

/-- C6 witness: the two-node edge-free graph. -/
theorem c6_no_edges_witness : compute_digest c6Nodes [] = ⟨2, 0, 0, 0, 0⟩ := by
  rw [c6_no_edges_digest c6Nodes (by decide)]
  rfl

/-- C7: the holonomy-gap function is symmetric, and the gap of a digest with
itself is 0. -/
theorem c7_holonomy_gap_symm_refl (A B : Digest) :
    holonomy_gap A B = holonomy_gap B A ∧ holonomy_gap A A = 0 := by
  constructor
  · simp [holonomy_gap, abs_sub_comm]
  · simp [holonomy_gap]

/-- C8: extracting the scenario text with no prior digest yields at least one
Claim node, at least two Evidence nodes, exactly one Source node, a digest
with `x_frontier = 0`, and extraction confidence ≥ 0.6 (it is exactly 1). -/
theorem c8_extraction_scenario :
    c8Built.nodes.countP (fun n => n.type == "Claim") ≥ 1 ∧
    c8Built.nodes.countP (fun n => n.type == "Evidence") ≥ 2 ∧
    c8Built.nodes.countP (fun n => n.type == "Source") = 1 ∧
    c8Built.digest.x_frontier = 0 ∧
    c8Built.conf ≥ 6 / 10 := by
  have hsplit : FB.sent_split c8Text =
      ["The result is consistent.", "Because RCTs show effect, we proceed.",
       "According to doi:10.1000/xyz, findings replicate.", "Therefore, policy holds."] := by
    decide
  have hE : FB.extract_nodes_edges c8Text =
      ((FB.extractLoop "The result is consistent."
          ["Because RCTs show effect, we proceed.",
           "According to doi:10.1000/xyz, findings replicate.",
           "Therefore, policy holds."]).nodes,
       (FB.extractLoop "The result is consistent."
          ["Because RCTs show effect, we proceed.",
           "According to doi:10.1000/xyz, findings replicate.",
           "Therefore, policy holds."]).edges,
       FB.confidence
         (FB.extractLoop "The result is consistent."
            ["Because RCTs show effect, we proceed.",
             "According to doi:10.1000/xyz, findings replicate.",
             "Therefore, policy holds."]) 4) := by
    simp only [FB.extract_nodes_edges, hsplit]
    rfl
  have hconf : c8Built.conf =
      FB.confidence
        (FB.extractLoop "The result is consistent."
           ["Because RCTs show effect, we proceed.",
            "According to doi:10.1000/xyz, findings replicate.",
            "Therefore, policy holds."]) 4 := by
    show (FB.build_frame_from_text c8Text).conf = _
    simp only [FB.build_frame_from_text, hE]
  have hcv : FB.confidence
      (FB.extractLoop "The result is consistent."
         ["Because RCTs show effect, we proceed.",
          "According to doi:10.1000/xyz, findings replicate.",
          "Therefore, policy holds."]) 4 = 1 := by
    simp only [FB.confidence]
    rw [show (FB.extractLoop "The result is consistent."
        ["Because RCTs show effect, we proceed.",
         "According to doi:10.1000/xyz, findings replicate.",
         "Therefore, policy holds."]).nodes.length = 5 from by decide]
    rw [show (FB.extractLoop "The result is consistent."
        ["Because RCTs show effect, we proceed.",
         "According to doi:10.1000/xyz, findings replicate.",
         "Therefore, policy holds."]).edges.length = 4 from by decide]
    rw [show (FB.extractLoop "The result is consistent."
        ["Because RCTs show effect, we proceed.",
         "According to doi:10.1000/xyz, findings replicate.",
         "Therefore, policy holds."]).nodes.any
          (fun n => FB.CITE_TOKENS.any (fun t => strContains (pyLower n.label) t)) = true
        from by decide]
    norm_num
  refine ⟨by decide, by decide, by decide, by decide, ?_⟩
  rw [hconf, hcv]
  norm_num

/-- C9 counterexample: the shim ingress endpoint answers HTTP 200 both for an
oversized body (the claim demands 413) and for malformed JSON, which it treats
as an empty frame and accepts (the claim demands 400); and at the bus a
shape-valid frame violating no guard is answered 500 (`telem.get` raises on
the pydantic `Telemetry`), not the claimed 200. -/
theorem c9_status_counterexample :
    (shim_post_frame 256001 none).status = 200 ∧
    (shim_post_frame 256001 none).status ≠ 413 ∧
    (shim_post_frame 12 none).status = 200 ∧
    (shim_post_frame 12 none).status ≠ 400 ∧
    (shim_post_frame 12 none).ok = true ∧
    (post_frame [] w10Frame).status = 500 ∧
    (post_frame [] w10Frame).status ≠ 200 := by
  decide

/-- C9 amended: the shim endpoint answers every request with status 200 —
oversized payloads get `{ok: false, error: "payload too large"}` and malformed
JSON is treated as an empty frame and accepted.  The bus endpoint maps a guard
`ValueError` to 422 with the guard's human-readable reason, but it never
answers 200 and never commits to the stream store: every frame surviving the
first three checks raises `AttributeError` in the Δ_scale check (`telem.get`
on the pydantic `Telemetry`), which FastAPI surfaces as HTTP 500.  No endpoint
returns 400 or 413. -/
theorem c9_amended_statuses (rawSize : Nat) (body : Option Frame) (store : StreamStore)
    (f : Frame) (e : GuardErr) (msg : String) :
    (shim_post_frame rawSize body).status = 200 ∧
    (rawSize > SHIM_BYTE_CAP →
      (shim_post_frame rawSize body).ok = false ∧
      (shim_post_frame rawSize body).error = some "payload too large") ∧
    (guard_check_pyd { f with digest := some (compute_digest f.nodes f.edges) }
        (storeGet store f.stream_id) = .valueError e →
      post_frame store f = ⟨422, none, some (guard_message e), store⟩) ∧
    (guard_check_pyd { f with digest := some (compute_digest f.nodes f.edges) }
        (storeGet store f.stream_id) = .attributeError msg →
      post_frame store f = ⟨500, none, none, store⟩) ∧
    (post_frame store f).status ≠ 200 ∧
    (post_frame store f).store = store := by
  refine ⟨?_, ?_, ?_, ?_, (post_frame_no_accept store f).1, (post_frame_no_accept store f).2⟩
  · by_cases h : rawSize > SHIM_BYTE_CAP <;> simp [shim_post_frame, h]
  · intro h
    simp [shim_post_frame, h]
  · intro h
    exact post_frame_of_value_err store f e h
  · intro h
    exact post_frame_of_attr_err store f msg h

/-- C9 witness: an oversized request at the shim; a frame tripping the cycle
cap at the bus (422); and a guard-clean frame at the bus (500, store
untouched). -/
theorem c9_amended_witness :
    (shim_post_frame 256001 none).status = 200 ∧
    (shim_post_frame 256001 none).ok = false ∧
    (shim_post_frame 256001 none).error = some "payload too large" ∧
    (post_frame [] k3Frame).status = 422 ∧
    (post_frame [] k3Frame).detail = some (guard_message (.cycleCap 5)) ∧
    (post_frame [] w10Frame).status = 500 ∧
    (post_frame [] w10Frame).status ≠ 200 ∧
    (post_frame [] w10Frame).store = [] := by
  have hk := c9_amended_statuses 256001 none [] k3Frame (.cycleCap 5) TELEM_GET_ERR
  have hw := c9_amended_statuses 12 none [] w10Frame (.cycleCap 5) TELEM_GET_ERR
  have hgk : guard_check_pyd
      { k3Frame with digest := some (compute_digest k3Frame.nodes k3Frame.edges) }
      (storeGet [] k3Frame.stream_id) = .valueError (.cycleCap 5) := by decide
  have hgw : guard_check_pyd
      { w10Frame with digest := some (compute_digest w10Frame.nodes w10Frame.edges) }
      (storeGet [] w10Frame.stream_id) = .attributeError TELEM_GET_ERR := by decide
  refine ⟨hk.1, (hk.2.1 (by decide)).1, (hk.2.1 (by decide)).2, ?_, ?_, ?_, hw.2.2.2.2.1, ?_⟩
  · rw [hk.2.2.1 hgk]
  · rw [hk.2.2.1 hgk]
  · rw [hw.2.2.2.1 hgw]
  · rw [hw.2.2.2.1 hgw]

/-- C10 counterexample: with a negative tuned cap (-1) for the (default asset,
empty pair) slot, a frame with negative `delta_scale = -0.5` and no
explanatory structure does raise the delta_scale violation — refuting the
claim that the check never fires for negative `delta_scale` whatever the
effective cap. -/
theorem c10_negative_scale_counterexample :
    ds_value c10Frame < 0 ∧
    guard_check c10Frame none c10Params = some (.scaleCap (-(1 : ℚ) / 2) (-1)) := by
  constructor
  · rw [show ds_value c10Frame = -(1 : ℚ) / 2 from rfl]
    norm_num
  · have hcap : cap_eff c10Frame c10Params = -1 := rfl
    have hcond : ((ds_value c10Frame ≠ 0 : Bool) &&
        decide (ds_value c10Frame > cap_eff c10Frame c10Params) &&
        !has_explanation c10Frame) = true := by
      rw [show ds_value c10Frame = -(1 : ℚ) / 2 from rfl, hcap,
        show has_explanation c10Frame = false from by decide]
      norm_num
    have hdsc : delta_scale_check c10Frame c10Params =
        some (.scaleCap (-(1 : ℚ) / 2) (-1)) := by
      simp only [delta_scale_check]
      rw [hcond, if_pos rfl]
      rw [show ds_value c10Frame = -(1 : ℚ) / 2 from rfl, hcap]
    rw [guard_check_unfold c10Frame zeroDigest none c10Params rfl]
    rw [show cycle_check zeroDigest = none from by decide]
    rw [hdsc]
    rfl

/-- C10 amended: the delta_scale check never fires when `delta_scale` is
absent or zero, whatever the effective cap; for a negative `delta_scale` it
never fires provided the effective cap is not below that value (in particular
for every non-negative cap) — but a tuned cap below a negative `delta_scale`
does make it fire. -/
theorem c10_amended_no_fire (f : Frame) (params : ScaleParams)
    (h : ds_value f = 0 ∨ (ds_value f < 0 ∧ ds_value f ≤ cap_eff f params)) :
    delta_scale_check f params = none := by
  simp only [delta_scale_check]
  rcases h with h0 | ⟨_, hle⟩
  · rw [h0]
    simp
  · rw [show (decide (ds_value f > cap_eff f params)) = false from
      decide_eq_false (not_lt.mpr hle)]
    simp

/-- C10 witness: an empty frame with no `delta_scale` in telemetry. -/
theorem c10_amended_witness : delta_scale_check w10Frame [] = none :=
  c10_amended_no_fire w10Frame [] (Or.inl (by decide))

end OpenLine
